import Mathlib

/-!
Verification development for the Odoo contact synchronization job
(`odoo_sync/cron.py`, `odoo_sync/models.py`).

The embedding models:
  * JSON values (`J`) as received from the remote JSON-RPC endpoint;
  * raw remote records as association lists of field name to JSON value
    (a missing key models an absent field; `J.null` models explicit null);
  * the transport helper `_make_odoo_request` over an abstract HTTP outcome;
  * the local store (`OdooContact` table) as an association list keyed by
    the `odoo_id` value, and Django `update_or_create` as `upsert`;
  * the cron job body `SyncOdooContactsCronJob.do` as `doSync`, with an
    oracle saying which per-record database writes raise an exception.
-/

namespace OdooSync

/-- JSON values, as produced by parsing a JSON-RPC response body. -/
inductive J where
  | null
  | bool (b : Bool)
  | num (n : Int)
  | str (s : String)
  | arr (xs : List J)
  deriving Repr

mutual

/-- Decidable equality on JSON values (hand-rolled: `J` is a nested inductive). -/
def J.decEq : (a b : J) → Decidable (a = b)
  | .null, .null => isTrue rfl
  | .null, .bool _ => isFalse (fun h => J.noConfusion h)
  | .null, .num _ => isFalse (fun h => J.noConfusion h)
  | .null, .str _ => isFalse (fun h => J.noConfusion h)
  | .null, .arr _ => isFalse (fun h => J.noConfusion h)
  | .bool _, .null => isFalse (fun h => J.noConfusion h)
  | .bool a, .bool b =>
      if h : a = b then isTrue (by rw [h])
      else isFalse (fun he => h (by cases he; rfl))
  | .bool _, .num _ => isFalse (fun h => J.noConfusion h)
  | .bool _, .str _ => isFalse (fun h => J.noConfusion h)
  | .bool _, .arr _ => isFalse (fun h => J.noConfusion h)
  | .num _, .null => isFalse (fun h => J.noConfusion h)
  | .num _, .bool _ => isFalse (fun h => J.noConfusion h)
  | .num a, .num b =>
      if h : a = b then isTrue (by rw [h])
      else isFalse (fun he => h (by cases he; rfl))
  | .num _, .str _ => isFalse (fun h => J.noConfusion h)
  | .num _, .arr _ => isFalse (fun h => J.noConfusion h)
  | .str _, .null => isFalse (fun h => J.noConfusion h)
  | .str _, .bool _ => isFalse (fun h => J.noConfusion h)
  | .str _, .num _ => isFalse (fun h => J.noConfusion h)
  | .str a, .str b =>
      if h : a = b then isTrue (by rw [h])
      else isFalse (fun he => h (by cases he; rfl))
  | .str _, .arr _ => isFalse (fun h => J.noConfusion h)
  | .arr _, .null => isFalse (fun h => J.noConfusion h)
  | .arr _, .bool _ => isFalse (fun h => J.noConfusion h)
  | .arr _, .num _ => isFalse (fun h => J.noConfusion h)
  | .arr _, .str _ => isFalse (fun h => J.noConfusion h)
  | .arr xs, .arr ys =>
      match J.decEqList xs ys with
      | isTrue h => isTrue (by rw [h])
      | isFalse h => isFalse (fun he => h (by cases he; rfl))

/-- Decidable equality on lists of JSON values. -/
def J.decEqList : (a b : List J) → Decidable (a = b)
  | [], [] => isTrue rfl
  | [], _ :: _ => isFalse (fun h => List.noConfusion h)
  | _ :: _, [] => isFalse (fun h => List.noConfusion h)
  | x :: xs, y :: ys =>
      match J.decEq x y with
      | isFalse h => isFalse (fun he => h (by cases he; rfl))
      | isTrue h1 =>
          match J.decEqList xs ys with
          | isTrue h2 => isTrue (by rw [h1, h2])
          | isFalse h2 => isFalse (fun he => h2 (by cases he; rfl))

end

instance : DecidableEq J := J.decEq

/-- Python truthiness of a JSON value (None, False, 0, "", [] are falsy). -/
def J.truthy : J → Bool
  | .null => false
  | .bool b => b
  | .num n => n != 0
  | .str s => s != ""
  | .arr xs => !xs.isEmpty

/-- `isinstance(v, bool)` on a decoded JSON value. -/
def J.isBool : J → Bool
  | .bool _ => true
  | _ => false

/-- `isinstance(v, list)` on a decoded JSON value. -/
def J.isList : J → Bool
  | .arr _ => true
  | _ => false

/-- `len(v)` for a list value (only consulted on lists in the source). -/
def J.listLen : J → Nat
  | .arr xs => xs.length
  | _ => 0

/-- `v[i]` for a list value (only used under a length guard in the source). -/
def J.listIdx : J → Nat → J
  | .arr xs, i => xs.getD i J.null
  | _, _ => J.null

/-- A raw remote record: the decoded JSON object for one contact.
A key that is absent from the list models an absent field. -/
abbrev RawRecord := List (String × J)

/-- Dictionary lookup distinguishing absent (`none`) from present. -/
def rawGet? : RawRecord → String → Option J
  | [], _ => none
  | (k2, v) :: rest, k => if k2 = k then some v else rawGet? rest k

/-- Python `dict.get(k)`: absent keys yield `None` (here `J.null`). -/
def pyGet (r : RawRecord) (k : String) : J :=
  (rawGet? r k).getD J.null

/-- The `country_name` computation of `do` (cron.py lines 153-157):
`if contact_data.get("country_id") and isinstance(contact_data["country_id"], list)
and len(contact_data["country_id"]) > 1: country_name = contact_data["country_id"][1]`,
with the `is False` elif leaving the initial `None` in place. -/
def countryName (r : RawRecord) : J :=
  let c := pyGet r "country_id"
  if c.truthy && c.isList && decide (c.listLen > 1) then c.listIdx 1
  else J.null

/-- The `defaults` dictionary built by `do` (cron.py lines 160-170) for one
record, after the comprehension
`{k: v for k, v in defaults.items() if v is not None or k in ["email", "phone",
"street", "city", "zip_code", "country"]}`:
the six listed keys are always kept (even when `None`), while `name` is kept
only when its value is not `None` (`name := none` models the dropped key). -/
structure Defaults where
  name : Option J
  email : J
  phone : J
  street : J
  city : J
  zip_code : J
  country : J
  deriving Repr, DecidableEq

/-- Field mapping from a raw remote record to the upsert defaults
(cron.py lines 153-170). -/
def mapDefaults (r : RawRecord) : Defaults :=
  let n := pyGet r "name"
  { name := if n = J.null then none else some n
    email := pyGet r "email"
    phone := pyGet r "phone"
    street := pyGet r "street"
    city := pyGet r "city"
    zip_code := pyGet r "zip"
    country := countryName r }

/-- A row of the `OdooContact` table (models.py lines 3-12), minus the
`odoo_id` key which the store carries separately.  `last_synced` is the
`auto_now` timestamp, modelled as the clock value of the run. -/
structure Contact where
  name : J
  email : J
  phone : J
  street : J
  city : J
  zip_code : J
  country : J
  last_synced : Nat
  deriving Repr, DecidableEq

/-- The local `OdooContact` table: rows in insertion order, keyed by the
value passed as `odoo_id` (unique). -/
abbrev Store := List (J × Contact)

/-- `OdooContact.objects.get / filter` by `odoo_id`: first row with the key. -/
def lookupC : Store → J → Option Contact
  | [], _ => none
  | (k2, c) :: rest, k => if k2 = k then some c else lookupC rest k

/-- Applying the `defaults` mapping to an existing row (Django
`update_or_create` update path): every key present in `defaults` is
overwritten (a dropped `name` key leaves the old name), and `auto_now`
refreshes `last_synced`. -/
def applyDefaults (c : Contact) (d : Defaults) (now : Nat) : Contact :=
  { name := d.name.getD c.name
    email := d.email
    phone := d.phone
    street := d.street
    city := d.city
    zip_code := d.zip_code
    country := d.country
    last_synced := now }

/-- Creating a new row from `defaults` (Django `update_or_create` create
path): a dropped `name` key falls back to the `CharField` default `""`. -/
def createContact (d : Defaults) (now : Nat) : Contact :=
  { name := d.name.getD (J.str "")
    email := d.email
    phone := d.phone
    street := d.street
    city := d.city
    zip_code := d.zip_code
    country := d.country
    last_synced := now }

/-- `OdooContact.objects.update_or_create(odoo_id=k, defaults=d)`
(cron.py lines 173-176).  Returns the new store and the `created` flag. -/
def upsert (s : Store) (k : J) (d : Defaults) (now : Nat) : Store × Bool :=
  match s with
  | [] => ([(k, createContact d now)], true)
  | (k2, c) :: rest =>
    if k2 = k then ((k2, applyDefaults c d now) :: rest, false)
    else
      let u := upsert rest k d now
      ((k2, c) :: u.1, u.2)

/-- Outcome of the per-record loop: final store and the
`synced_count` / `updated_count` totals (cron.py lines 150-183). -/
structure LoopOut where
  store : Store
  created : Nat
  updated : Nat
  deriving Repr, DecidableEq

/-- The record-by-record sync loop (cron.py lines 152-182).  `oracle i`
says whether the database write for the i-th record raises (the source
wraps `update_or_create` in `try/except` and logs-and-continues); a record
with no `id` key raises `KeyError` inside the same `try` and is likewise
skipped. -/
def syncLoop (oracle : Nat → Bool) (now : Nat) : Nat → Store → List RawRecord → LoopOut
  | _, s, [] => ⟨s, 0, 0⟩
  | i, s, r :: rest =>
    match rawGet? r "id" with
    | none => syncLoop oracle now (i + 1) s rest
    | some v =>
      if oracle i then syncLoop oracle now (i + 1) s rest
      else
        let u := upsert s v (mapDefaults r) now
        let out := syncLoop oracle now (i + 1) u.1 rest
        if u.2 then ⟨out.store, out.created + 1, out.updated⟩
        else ⟨out.store, out.created, out.updated + 1⟩

/-- What a JSON-RPC response body amounts to once parsed: a success
envelope carrying a result, an error envelope, or text that `parse_json`
rejects (malformed JSON, missing envelope keys, or an empty body). -/
inductive RpcBody (α : Type) where
  | okEnv (result : α)
  | errEnv (message : String) (data : J)
  | malformed
  deriving Repr, DecidableEq

/-- Outcome of one `requests.post` call (cron.py line 46). -/
inductive HttpOutcome (α : Type) where
  | resp (status : Nat) (body : RpcBody α)
  | timeout
  | connError
  deriving Repr, DecidableEq

/-- Result of `parse_json`: the jsonrpcclient `Ok` / `Error` objects. -/
inductive Parsed (α : Type) where
  | ok (result : α)
  | err (message : String) (data : J)
  deriving Repr, DecidableEq

/-- `SyncOdooContactsCronJob._make_odoo_request` (cron.py lines 18-75),
from the point the HTTP response (or transport failure) is known:
  * timeout / connection failures return `None`;
  * `raise_for_status` raises for status >= 400; the handler then feeds
    the body to `parse_json` and returns whatever parses (`Ok` or
    `Error`), or `None` when parsing fails or the body is empty;
  * otherwise the body is parsed; malformed bodies return `None`. -/
def makeOdooRequest {α : Type} : HttpOutcome α → Option (Parsed α)
  | .timeout => none
  | .connError => none
  | .resp status body =>
    if status ≥ 400 then
      match body with
      | .okEnv r => some (.ok r)
      | .errEnv m d => some (.err m d)
      | .malformed => none
    else
      match body with
      | .okEnv r => some (.ok r)
      | .errEnv m d => some (.err m d)
      | .malformed => none

/-- The four Django settings read by `do` (cron.py lines 81-84); `none`
models a missing setting (`getattr` default `None`). -/
structure Config where
  url : Option String
  db : Option String
  username : Option String
  password : Option String
  deriving Repr, DecidableEq

/-- Python truthiness of one settings value (`None` and `""` are falsy). -/
def pyTruthy : Option String → Bool
  | none => false
  | some s => s != ""

/-- The two HTTP interactions a run can make, as the environment resolves
them: the authentication POST and the `search_read` POST.  The fetch
result is typed as a list of raw records (`do` iterates the result as a
list of dicts). -/
structure Env where
  auth : HttpOutcome J
  fetch : HttpOutcome (List RawRecord)

/-- Terminal state of one run of `do`, read off the control path taken. -/
inductive RunResult where
  | configError
  | authTransport
  | authRpcError (message : String) (data : J)
  | authFalseUid
  | authFalsyUid
  | fetchTransport
  | fetchRpcError (message : String) (data : J)
  | done (created : Nat) (updated : Nat)
  deriving Repr, DecidableEq

/-- Which HTTP requests the run issued, in order. -/
inductive Req where
  | auth
  | fetch
  deriving Repr, DecidableEq

/-- Everything observable about one run: terminal state, final store, and
the HTTP requests that were attempted. -/
structure RunOut where
  result : RunResult
  store : Store
  reqs : List Req
  deriving Repr, DecidableEq

/-- `SyncOdooContactsCronJob.do` (cron.py lines 78-184):
settings check (`if not all([...])`), authentication (with the
boolean-`False` uid distinguished from other falsy uids), contact fetch,
then the per-record sync loop. -/
def doSync (cfg : Config) (env : Env) (oracle : Nat → Bool) (now : Nat)
    (store : Store) : RunOut :=
  if !(pyTruthy cfg.url && pyTruthy cfg.db && pyTruthy cfg.username
       && pyTruthy cfg.password) then
    ⟨.configError, store, []⟩
  else
    match makeOdooRequest env.auth with
    | none => ⟨.authTransport, store, [.auth]⟩
    | some (.err m d) => ⟨.authRpcError m d, store, [.auth]⟩
    | some (.ok uid) =>
      if !uid.truthy && uid.isBool then ⟨.authFalseUid, store, [.auth]⟩
      else if !uid.truthy then ⟨.authFalsyUid, store, [.auth]⟩
      else
        match makeOdooRequest env.fetch with
        | none => ⟨.fetchTransport, store, [.auth, .fetch]⟩
        | some (.err m d) => ⟨.fetchRpcError m d, store, [.auth, .fetch]⟩
        | some (.ok recs) =>
          let out := syncLoop oracle now 0 store recs
          ⟨.done out.created out.updated, out.store, [.auth, .fetch]⟩

/-- The `odoo_id` keys of the store rows, in row order. -/
def storeKeys (s : Store) : List J := s.map Prod.fst

/-- The remote ids present in a batch of raw records (records with no
`id` key contribute nothing). -/
def idsOf (recs : List RawRecord) : List J :=
  recs.filterMap (fun r => rawGet? r "id")

/-- The oracle describing a run in which no database write raises. -/
def noFail : Nat → Bool := fun _ => false

/-- A fully-populated configuration, for concrete runs. -/
def cfgEx : Config := ⟨some "http://odoo.example", some "db", some "user", some "pw"⟩

/-- A raw remote record with id 1, a name and a country pair. -/
def recAlice : RawRecord :=
  [("id", J.num 1), ("name", J.str "Alice"),
   ("country_id", J.arr [J.num 10, J.str "Testland"])]

/-- A raw remote record with id 2 and only a name. -/
def recCarol : RawRecord := [("id", J.num 2), ("name", J.str "Carol")]

/-- A raw remote record carrying only its id (every other field absent). -/
def recIdOnly : RawRecord := [("id", J.num 1)]

/-- A raw remote record whose name and email are present with explicit null. -/
def recNameNull : RawRecord :=
  [("id", J.num 1), ("name", J.null), ("email", J.null)]

/-- A pre-existing local row with non-null name and email. -/
def contactBob : Contact :=
  ⟨J.str "Bob", J.str "bob@example.com", J.null, J.null, J.null, J.null, J.null, 0⟩

/-- A pre-existing local row with every optional field populated. -/
def contactFull : Contact :=
  ⟨J.str "Bob", J.str "bob@example.com", J.str "555-1234", J.str "1 Main St",
   J.str "Cairo", J.str "11511", J.str "Egypt", 0⟩

/-- A raw remote record whose six optional fields are all explicit null. -/
def recAllNull : RawRecord :=
  [("id", J.num 1), ("email", J.null), ("phone", J.null), ("street", J.null),
   ("city", J.null), ("zip", J.null), ("country_id", J.null)]

section StoreLemmas

theorem lookupC_isSome_iff (s : Store) (k : J) :
    (lookupC s k).isSome = true ↔ k ∈ storeKeys s := by
  induction s with
  | nil => simp [lookupC, storeKeys]
  | cons p rest ih =>
    obtain ⟨k2, c⟩ := p
    by_cases h : k2 = k
    · subst h
      simp [lookupC, storeKeys]
    · simp [lookupC, storeKeys, h, ih, Ne.symm h]

theorem lookupC_upsert_self (s : Store) (k : J) (d : Defaults) (n : Nat) :
    lookupC (upsert s k d n).1 k =
      some (match lookupC s k with
            | some c => applyDefaults c d n
            | none => createContact d n) := by
  induction s with
  | nil => simp [upsert, lookupC]
  | cons p rest ih =>
    obtain ⟨k2, c⟩ := p
    by_cases h : k2 = k
    · subst h
      simp [upsert, lookupC]
    · simp [upsert, lookupC, h, ih]

theorem lookupC_upsert_other (s : Store) (k v : J) (d : Defaults) (n : Nat)
    (h : v ≠ k) : lookupC (upsert s k d n).1 v = lookupC s v := by
  induction s with
  | nil => simp [upsert, lookupC, Ne.symm h]
  | cons p rest ih =>
    obtain ⟨k2, c⟩ := p
    by_cases h2 : k2 = k
    · subst h2
      simp [upsert, lookupC, Ne.symm h]
    · by_cases h3 : k2 = v
      · subst h3
        simp [upsert, lookupC, h2]
      · simp [upsert, lookupC, h2, h3, ih]

theorem upsert_created (s : Store) (k : J) (d : Defaults) (n : Nat) :
    (upsert s k d n).2 = (lookupC s k).isNone := by
  induction s with
  | nil => simp [upsert, lookupC]
  | cons p rest ih =>
    obtain ⟨k2, c⟩ := p
    by_cases h : k2 = k
    · subst h
      simp [upsert, lookupC]
    · simp [upsert, lookupC, h, ih]

theorem storeKeys_upsert_found (s : Store) (k : J) (d : Defaults) (n : Nat)
    (h : (lookupC s k).isSome = true) :
    storeKeys (upsert s k d n).1 = storeKeys s := by
  induction s with
  | nil => simp [lookupC] at h
  | cons p rest ih =>
    obtain ⟨k2, c⟩ := p
    by_cases h2 : k2 = k
    · subst h2
      simp [upsert, storeKeys]
    · simp [lookupC, h2] at h
      simp [upsert, storeKeys, h2] at ih ⊢
      exact ih h

theorem storeKeys_upsert_new (s : Store) (k : J) (d : Defaults) (n : Nat)
    (h : lookupC s k = none) :
    storeKeys (upsert s k d n).1 = storeKeys s ++ [k] := by
  induction s with
  | nil => simp [upsert, storeKeys]
  | cons p rest ih =>
    obtain ⟨k2, c⟩ := p
    by_cases h2 : k2 = k
    · subst h2
      simp [lookupC] at h
    · simp [lookupC, h2] at h
      simp [upsert, storeKeys, h2] at ih ⊢
      exact ih h

theorem upsert_length_found (s : Store) (k : J) (d : Defaults) (n : Nat)
    (h : (lookupC s k).isSome = true) :
    (upsert s k d n).1.length = s.length := by
  have h1 := storeKeys_upsert_found s k d n h
  have h2 : ((upsert s k d n).1.map Prod.fst).length = (s.map Prod.fst).length := by
    rw [show (upsert s k d n).1.map Prod.fst = storeKeys (upsert s k d n).1 from rfl,
        h1]
    rfl
  simpa using h2

end StoreLemmas

section LoopLemmas

theorem lookupC_upsert_isSome (s : Store) (k v : J) (d : Defaults) (n : Nat)
    (h : (lookupC s v).isSome = true) :
    (lookupC (upsert s k d n).1 v).isSome = true := by
  by_cases hv : v = k
  · subst hv
    rw [lookupC_upsert_self]
    rfl
  · rw [lookupC_upsert_other s k v d n hv]
    exact h

theorem idsOf_cons_some (r : RawRecord) (rest : List RawRecord) (k : J)
    (hid : rawGet? r "id" = some k) : idsOf (r :: rest) = k :: idsOf rest := by
  simp [idsOf, hid]

theorem idsOf_cons_none (r : RawRecord) (rest : List RawRecord)
    (hid : rawGet? r "id" = none) : idsOf (r :: rest) = idsOf rest := by
  simp [idsOf, hid]

theorem syncLoop_cons_noid (oracle : Nat → Bool) (now i : Nat) (s : Store)
    (r : RawRecord) (rest : List RawRecord) (hid : rawGet? r "id" = none) :
    syncLoop oracle now i s (r :: rest) = syncLoop oracle now (i + 1) s rest := by
  simp [syncLoop, hid]

theorem syncLoop_cons_fail (oracle : Nat → Bool) (now i : Nat) (s : Store)
    (r : RawRecord) (rest : List RawRecord) (k : J)
    (hid : rawGet? r "id" = some k) (ho : oracle i = true) :
    syncLoop oracle now i s (r :: rest) = syncLoop oracle now (i + 1) s rest := by
  simp [syncLoop, hid, ho]

theorem syncLoop_cons_write_store (oracle : Nat → Bool) (now i : Nat) (s : Store)
    (r : RawRecord) (rest : List RawRecord) (k : J)
    (hid : rawGet? r "id" = some k) (ho : oracle i = false) :
    (syncLoop oracle now i s (r :: rest)).store =
      (syncLoop oracle now (i + 1) (upsert s k (mapDefaults r) now).1 rest).store := by
  simp only [syncLoop, hid, ho]
  cases (upsert s k (mapDefaults r) now).2 <;> simp

theorem syncLoop_cons_write_created (oracle : Nat → Bool) (now i : Nat) (s : Store)
    (r : RawRecord) (rest : List RawRecord) (k : J)
    (hid : rawGet? r "id" = some k) (ho : oracle i = false) :
    (syncLoop oracle now i s (r :: rest)).created =
      (syncLoop oracle now (i + 1) (upsert s k (mapDefaults r) now).1 rest).created
        + (if (upsert s k (mapDefaults r) now).2 then 1 else 0) := by
  simp only [syncLoop, hid, ho]
  cases (upsert s k (mapDefaults r) now).2 <;> simp

theorem syncLoop_cons_write_updated (oracle : Nat → Bool) (now i : Nat) (s : Store)
    (r : RawRecord) (rest : List RawRecord) (k : J)
    (hid : rawGet? r "id" = some k) (ho : oracle i = false) :
    (syncLoop oracle now i s (r :: rest)).updated =
      (syncLoop oracle now (i + 1) (upsert s k (mapDefaults r) now).1 rest).updated
        + (if (upsert s k (mapDefaults r) now).2 then 0 else 1) := by
  simp only [syncLoop, hid, ho]
  cases (upsert s k (mapDefaults r) now).2 <;> simp

theorem syncLoop_lookup_frame (oracle : Nat → Bool) (now : Nat)
    (recs : List RawRecord) (i : Nat) (s : Store) (v : J)
    (h : v ∉ idsOf recs) :
    lookupC (syncLoop oracle now i s recs).store v = lookupC s v := by
  induction recs generalizing i s with
  | nil => simp [syncLoop]
  | cons r rest ih =>
    cases hid : rawGet? r "id" with
    | none =>
      have hrest : v ∉ idsOf rest := by rw [← idsOf_cons_none r rest hid]; exact h
      rw [syncLoop_cons_noid oracle now i s r rest hid]
      exact ih (i + 1) s hrest
    | some k =>
      have hcons := idsOf_cons_some r rest k hid
      have hrest : v ∉ idsOf rest := by
        intro hmem
        exact h (by rw [hcons]; exact List.mem_cons_of_mem k hmem)
      have hvk : v ≠ k := by
        intro hvk
        exact h (by rw [hcons, hvk]; exact List.mem_cons_self k (idsOf rest))
      cases ho : oracle i with
      | true =>
        rw [syncLoop_cons_fail oracle now i s r rest k hid ho]
        exact ih (i + 1) s hrest
      | false =>
        rw [syncLoop_cons_write_store oracle now i s r rest k hid ho,
            ih (i + 1) (upsert s k (mapDefaults r) now).1 hrest,
            lookupC_upsert_other s k v (mapDefaults r) now hvk]

theorem mem_storeKeys_upsert (s : Store) (k : J) (d : Defaults) (n : Nat) (v : J) :
    v ∈ storeKeys (upsert s k d n).1 ↔ v ∈ storeKeys s ∨ v = k := by
  cases hl : lookupC s k with
  | some c =>
    have hs : (lookupC s k).isSome = true := by rw [hl]; rfl
    rw [storeKeys_upsert_found s k d n hs]
    constructor
    · exact Or.inl
    · rintro (hv | hv)
      · exact hv
      · rw [hv]
        exact (lookupC_isSome_iff s k).mp hs
  | none =>
    rw [storeKeys_upsert_new s k d n hl]
    simp

theorem upsert_nodup (s : Store) (k : J) (d : Defaults) (n : Nat)
    (h : (storeKeys s).Nodup) : (storeKeys (upsert s k d n).1).Nodup := by
  cases hl : lookupC s k with
  | some c =>
    have hs : (lookupC s k).isSome = true := by rw [hl]; rfl
    rw [storeKeys_upsert_found s k d n hs]
    exact h
  | none =>
    have hk : k ∉ storeKeys s := by
      intro hmem
      have := (lookupC_isSome_iff s k).mpr hmem
      rw [hl] at this
      exact Bool.noConfusion this
    rw [storeKeys_upsert_new s k d n hl]
    simp [List.nodup_append, h, hk]

theorem syncLoop_lookup_mono (oracle : Nat → Bool) (now : Nat)
    (recs : List RawRecord) (i : Nat) (s : Store) (v : J)
    (h : (lookupC s v).isSome = true) :
    (lookupC (syncLoop oracle now i s recs).store v).isSome = true := by
  induction recs generalizing i s with
  | nil => simpa [syncLoop] using h
  | cons r rest ih =>
    cases hid : rawGet? r "id" with
    | none =>
      rw [syncLoop_cons_noid oracle now i s r rest hid]
      exact ih (i + 1) s h
    | some k =>
      cases ho : oracle i with
      | true =>
        rw [syncLoop_cons_fail oracle now i s r rest k hid ho]
        exact ih (i + 1) s h
      | false =>
        rw [syncLoop_cons_write_store oracle now i s r rest k hid ho]
        exact ih (i + 1) _ (lookupC_upsert_isSome s k v (mapDefaults r) now h)

theorem syncLoop_nodup (oracle : Nat → Bool) (now : Nat)
    (recs : List RawRecord) (i : Nat) (s : Store)
    (h : (storeKeys s).Nodup) :
    (storeKeys (syncLoop oracle now i s recs).store).Nodup := by
  induction recs generalizing i s with
  | nil => simpa [syncLoop] using h
  | cons r rest ih =>
    cases hid : rawGet? r "id" with
    | none =>
      rw [syncLoop_cons_noid oracle now i s r rest hid]
      exact ih (i + 1) s h
    | some k =>
      cases ho : oracle i with
      | true =>
        rw [syncLoop_cons_fail oracle now i s r rest k hid ho]
        exact ih (i + 1) s h
      | false =>
        rw [syncLoop_cons_write_store oracle now i s r rest k hid ho]
        exact ih (i + 1) _ (upsert_nodup s k (mapDefaults r) now h)

theorem syncLoop_mem_keys (now : Nat) (recs : List RawRecord) (i : Nat)
    (s : Store) (v : J) :
    v ∈ storeKeys (syncLoop noFail now i s recs).store ↔
      v ∈ storeKeys s ∨ v ∈ idsOf recs := by
  induction recs generalizing i s with
  | nil => simp [syncLoop, idsOf]
  | cons r rest ih =>
    cases hid : rawGet? r "id" with
    | none =>
      rw [syncLoop_cons_noid noFail now i s r rest hid,
          idsOf_cons_none r rest hid]
      exact ih (i + 1) s
    | some k =>
      rw [syncLoop_cons_write_store noFail now i s r rest k hid rfl,
          idsOf_cons_some r rest k hid, ih (i + 1) _,
          mem_storeKeys_upsert s k (mapDefaults r) now v]
      constructor
      · rintro ((hv | hv) | hv)
        · exact Or.inl hv
        · exact Or.inr (by rw [hv]; exact List.mem_cons_self k (idsOf rest))
        · exact Or.inr (List.mem_cons_of_mem k hv)
      · rintro (hv | hv)
        · exact Or.inl (Or.inl hv)
        · rcases List.mem_cons.mp hv with hv | hv
          · exact Or.inl (Or.inr hv)
          · exact Or.inr hv

theorem syncLoop_counts (now : Nat) (recs : List RawRecord) (i : Nat) (s : Store) :
    (syncLoop noFail now i s recs).created + (syncLoop noFail now i s recs).updated =
      (recs.filter (fun r => (rawGet? r "id").isSome)).length := by
  induction recs generalizing i s with
  | nil => simp [syncLoop]
  | cons r rest ih =>
    cases hid : rawGet? r "id" with
    | none =>
      rw [syncLoop_cons_noid noFail now i s r rest hid]
      simpa [List.filter_cons, hid] using ih (i + 1) s
    | some k =>
      rw [syncLoop_cons_write_created noFail now i s r rest k hid rfl,
          syncLoop_cons_write_updated noFail now i s r rest k hid rfl]
      have := ih (i + 1) (upsert s k (mapDefaults r) now).1
      simp only [List.filter_cons, hid, Option.isSome_some, if_true]
      cases (upsert s k (mapDefaults r) now).2 <;> simp <;> omega

theorem syncLoop_all_found (now : Nat) (recs : List RawRecord) (i : Nat) (s : Store)
    (h : ∀ r, r ∈ recs → ∀ v, rawGet? r "id" = some v →
      (lookupC s v).isSome = true) :
    (syncLoop noFail now i s recs).created = 0 ∧
      (syncLoop noFail now i s recs).store.length = s.length := by
  induction recs generalizing i s with
  | nil => simp [syncLoop]
  | cons r rest ih =>
    cases hid : rawGet? r "id" with
    | none =>
      rw [syncLoop_cons_noid noFail now i s r rest hid]
      exact ih (i + 1) s (fun r2 hm v hv => h r2 (List.mem_cons_of_mem r hm) v hv)
    | some k =>
      have hk : (lookupC s k).isSome = true :=
        h r (List.mem_cons_self r rest) k hid
      have hflag : (upsert s k (mapDefaults r) now).2 = false := by
        rw [upsert_created]
        cases hl : lookupC s k with
        | some c => rfl
        | none => rw [hl] at hk; exact Bool.noConfusion hk
      have hrest := ih (i + 1) (upsert s k (mapDefaults r) now).1
        (fun r2 hm v hv =>
          lookupC_upsert_isSome s k v (mapDefaults r) now
            (h r2 (List.mem_cons_of_mem r hm) v hv))
      constructor
      · rw [syncLoop_cons_write_created noFail now i s r rest k hid rfl, hflag]
        simpa using hrest.1
      · rw [syncLoop_cons_write_store noFail now i s r rest k hid rfl]
        rw [hrest.2]
        exact upsert_length_found s k (mapDefaults r) now hk

theorem syncLoop_processed (oracle : Nat → Bool) (now : Nat)
    (recs : List RawRecord) :
    ∀ (i : Nat) (s : Store) (j : Nat) (hj : j < recs.length),
      oracle (i + j) = false → ∀ v, rawGet? (recs.get ⟨j, hj⟩) "id" = some v →
      (lookupC (syncLoop oracle now i s recs).store v).isSome = true := by
  induction recs with
  | nil => intro i s j hj; exact absurd hj (Nat.not_lt_zero j)
  | cons r rest ih =>
    intro i s j hj ho v hv
    cases j with
    | zero =>
      have ho0 : oracle i = false := by simpa using ho
      have hid : rawGet? r "id" = some v := hv
      rw [syncLoop_cons_write_store oracle now i s r rest v hid ho0]
      apply syncLoop_lookup_mono
      rw [lookupC_upsert_self]
      rfl
    | succ j2 =>
      have hj2 : j2 < rest.length := Nat.lt_of_succ_lt_succ hj
      have ho2 : oracle ((i + 1) + j2) = false := by
        have harith : (i + 1) + j2 = i + (j2 + 1) := by omega
        rw [harith]
        exact ho
      have hv2 : rawGet? (rest.get ⟨j2, hj2⟩) "id" = some v := hv
      cases hid : rawGet? r "id" with
      | none =>
        rw [syncLoop_cons_noid oracle now i s r rest hid]
        exact ih (i + 1) s j2 hj2 ho2 v hv2
      | some k =>
        cases hor : oracle i with
        | true =>
          rw [syncLoop_cons_fail oracle now i s r rest k hid hor]
          exact ih (i + 1) s j2 hj2 ho2 v hv2
        | false =>
          rw [syncLoop_cons_write_store oracle now i s r rest k hid hor]
          exact ih (i + 1) _ j2 hj2 ho2 v hv2

end LoopLemmas

section Claims

/-- C1: the claim says any HTTP status >= 400 during authentication or fetch
aborts the run with zero local writes, for every response body.  The code
instead returns whatever `parse_json` yields from the error response body;
when both the authentication and the fetch responses carry HTTP status 500
but a valid JSON-RPC success envelope, the run proceeds, writes one row and
finishes with `created = 1`. -/
theorem C1_http_error_ok_envelope_writes :
    (500 ≥ 400) ∧
    doSync cfgEx
      ⟨HttpOutcome.resp 500 (RpcBody.okEnv (J.num 123)),
       HttpOutcome.resp 500 (RpcBody.okEnv [recAlice])⟩
      noFail 7 []
      = ⟨RunResult.done 1 0,
         [(J.num 1, ⟨J.str "Alice", J.null, J.null, J.null, J.null, J.null,
                     J.str "Testland", 7⟩)],
         [Req.auth, Req.fetch]⟩ := by
  exact ⟨by omega, by decide⟩

/-- C2 counterexample: the claim says every missing/absent field maps to
empty/null in the mapped record, including `name`.  For a raw record whose
`name` is absent, the mapping drops the `name` key entirely (`none`, not an
explicit null), and upserting it over an existing row keeps the old name
"Bob" instead of clearing it. -/
theorem C2_counterexample :
    (mapDefaults recIdOnly).name ≠ some J.null ∧
    lookupC (upsert [(J.num 1, contactBob)] (J.num 1)
        (mapDefaults recIdOnly) 5).1 (J.num 1)
      = some ⟨J.str "Bob", J.null, J.null, J.null, J.null, J.null, J.null, 5⟩ := by
  decide

/-- C2 amended: the mapping is a pure total function; every optional field
(email, phone, street, city, zip, country) that is missing in the raw record
maps to null, while a missing-or-null `name` is omitted from the mapping
(left `none`) rather than mapped to null. -/
theorem C2_amended_mapping (r : RawRecord) :
    (rawGet? r "email" = none → (mapDefaults r).email = J.null) ∧
    (rawGet? r "phone" = none → (mapDefaults r).phone = J.null) ∧
    (rawGet? r "street" = none → (mapDefaults r).street = J.null) ∧
    (rawGet? r "city" = none → (mapDefaults r).city = J.null) ∧
    (rawGet? r "zip" = none → (mapDefaults r).zip_code = J.null) ∧
    (rawGet? r "country_id" = none → (mapDefaults r).country = J.null) ∧
    (pyGet r "name" = J.null → (mapDefaults r).name = none) := by
  refine ⟨?_, ?_, ?_, ?_, ?_, ?_, fun h => by simp [mapDefaults, h]⟩ <;>
    intro h <;> simp [mapDefaults, pyGet, countryName, J.truthy, h]

/-- C2 amended, witnessed on the record that carries only an id. -/
theorem C2_amended_mapping_witness :
    (mapDefaults recIdOnly).email = J.null ∧
    (mapDefaults recIdOnly).phone = J.null ∧
    (mapDefaults recIdOnly).street = J.null ∧
    (mapDefaults recIdOnly).city = J.null ∧
    (mapDefaults recIdOnly).zip_code = J.null ∧
    (mapDefaults recIdOnly).country = J.null ∧
    (mapDefaults recIdOnly).name = none :=
  ⟨(C2_amended_mapping recIdOnly).1 (by decide),
   (C2_amended_mapping recIdOnly).2.1 (by decide),
   (C2_amended_mapping recIdOnly).2.2.1 (by decide),
   (C2_amended_mapping recIdOnly).2.2.2.1 (by decide),
   (C2_amended_mapping recIdOnly).2.2.2.2.1 (by decide),
   (C2_amended_mapping recIdOnly).2.2.2.2.2.1 (by decide),
   (C2_amended_mapping recIdOnly).2.2.2.2.2.2 (by decide)⟩

/-- C4: country-relation decoding.  A two-element pair maps to its second
component; boolean false, explicit null and an absent key all map to null. -/
theorem C4_country_decoding (r : RawRecord) (ri nm : J) :
    (rawGet? r "country_id" = some (J.arr [ri, nm]) →
      (mapDefaults r).country = nm) ∧
    (rawGet? r "country_id" = some (J.bool false) →
      (mapDefaults r).country = J.null) ∧
    (rawGet? r "country_id" = some J.null →
      (mapDefaults r).country = J.null) ∧
    (rawGet? r "country_id" = none →
      (mapDefaults r).country = J.null) := by
  refine ⟨?_, ?_, ?_, ?_⟩ <;> intro h <;>
    simp [mapDefaults, countryName, pyGet, J.truthy, J.isList, J.listLen,
          J.listIdx, h]

/-- C4 witnessed on concrete records for all four country encodings. -/
theorem C4_country_decoding_witness :
    (mapDefaults [("country_id", J.arr [J.num 10, J.str "Testland"])]).country
      = J.str "Testland" ∧
    (mapDefaults [("country_id", J.bool false)]).country = J.null ∧
    (mapDefaults [("country_id", J.null)]).country = J.null ∧
    (mapDefaults recIdOnly).country = J.null :=
  ⟨(C4_country_decoding [("country_id", J.arr [J.num 10, J.str "Testland"])]
      (J.num 10) (J.str "Testland")).1 (by decide),
   (C4_country_decoding [("country_id", J.bool false)] J.null J.null).2.1
     (by decide),
   (C4_country_decoding [("country_id", J.null)] J.null J.null).2.2.1
     (by decide),
   (C4_country_decoding recIdOnly J.null J.null).2.2.2 (by decide)⟩

/-- C5 counterexample: the claim says every field present with explicit null
clears the corresponding non-null local field.  A record whose `name` is
present with explicit null, synced over a row whose local name is "Bob",
leaves the name at "Bob" (the mapping drops the null `name` key); the email
in the same run is cleared, as the claim expects for the other fields. -/
theorem C5_counterexample :
    (doSync cfgEx
      ⟨HttpOutcome.resp 200 (RpcBody.okEnv (J.num 123)),
       HttpOutcome.resp 200 (RpcBody.okEnv [recNameNull])⟩
      noFail 5 [(J.num 1, contactBob)]).store
      = [(J.num 1, ⟨J.str "Bob", J.null, J.null, J.null, J.null, J.null,
                    J.null, 5⟩)] ∧
    contactBob.name = J.str "Bob" ∧
    rawGet? recNameNull "name" = some J.null ∧
    (J.str "Bob") ≠ J.null := by
  decide

/-- C5 amended: every optional field (email, phone, street, city, zip,
country) that is present with explicit null overwrites and clears the
previously non-null local field; the `name` field is excluded (a null name
is dropped from the mapping and the local name is preserved). -/
theorem C5_amended_null_clears (r : RawRecord) (s : Store) (k : J)
    (c : Contact) (now : Nat) (hl : lookupC s k = some c) :
    (rawGet? r "email" = some J.null → c.email ≠ J.null →
      (lookupC (upsert s k (mapDefaults r) now).1 k).map Contact.email
        = some J.null) ∧
    (rawGet? r "phone" = some J.null → c.phone ≠ J.null →
      (lookupC (upsert s k (mapDefaults r) now).1 k).map Contact.phone
        = some J.null) ∧
    (rawGet? r "street" = some J.null → c.street ≠ J.null →
      (lookupC (upsert s k (mapDefaults r) now).1 k).map Contact.street
        = some J.null) ∧
    (rawGet? r "city" = some J.null → c.city ≠ J.null →
      (lookupC (upsert s k (mapDefaults r) now).1 k).map Contact.city
        = some J.null) ∧
    (rawGet? r "zip" = some J.null → c.zip_code ≠ J.null →
      (lookupC (upsert s k (mapDefaults r) now).1 k).map Contact.zip_code
        = some J.null) ∧
    (rawGet? r "country_id" = some J.null → c.country ≠ J.null →
      (lookupC (upsert s k (mapDefaults r) now).1 k).map Contact.country
        = some J.null) := by
  have hself : lookupC (upsert s k (mapDefaults r) now).1 k
      = some (applyDefaults c (mapDefaults r) now) := by
    rw [lookupC_upsert_self, hl]
  refine ⟨?_, ?_, ?_, ?_, ?_, ?_⟩ <;> intro h hne <;> rw [hself] <;>
    simp [applyDefaults, mapDefaults, pyGet, countryName, J.truthy, h]

/-- C5 amended, witnessed: a record with all six optional fields explicitly
null, upserted over a fully-populated row, clears all six. -/
theorem C5_amended_null_clears_witness :
    (rawGet? recAllNull "email" = some J.null ∧ contactFull.email ≠ J.null ∧
      (lookupC (upsert [(J.num 1, contactFull)] (J.num 1)
          (mapDefaults recAllNull) 9).1 (J.num 1)).map Contact.email
        = some J.null) ∧
    (lookupC (upsert [(J.num 1, contactFull)] (J.num 1)
        (mapDefaults recAllNull) 9).1 (J.num 1)).map Contact.phone
      = some J.null ∧
    (lookupC (upsert [(J.num 1, contactFull)] (J.num 1)
        (mapDefaults recAllNull) 9).1 (J.num 1)).map Contact.street
      = some J.null ∧
    (lookupC (upsert [(J.num 1, contactFull)] (J.num 1)
        (mapDefaults recAllNull) 9).1 (J.num 1)).map Contact.city
      = some J.null ∧
    (lookupC (upsert [(J.num 1, contactFull)] (J.num 1)
        (mapDefaults recAllNull) 9).1 (J.num 1)).map Contact.zip_code
      = some J.null ∧
    (lookupC (upsert [(J.num 1, contactFull)] (J.num 1)
        (mapDefaults recAllNull) 9).1 (J.num 1)).map Contact.country
      = some J.null :=
  ⟨⟨by decide, by decide,
    (C5_amended_null_clears recAllNull [(J.num 1, contactFull)] (J.num 1)
      contactFull 9 (by decide)).1 (by decide) (by decide)⟩,
   (C5_amended_null_clears recAllNull [(J.num 1, contactFull)] (J.num 1)
      contactFull 9 (by decide)).2.1 (by decide) (by decide),
   (C5_amended_null_clears recAllNull [(J.num 1, contactFull)] (J.num 1)
      contactFull 9 (by decide)).2.2.1 (by decide) (by decide),
   (C5_amended_null_clears recAllNull [(J.num 1, contactFull)] (J.num 1)
      contactFull 9 (by decide)).2.2.2.1 (by decide) (by decide),
   (C5_amended_null_clears recAllNull [(J.num 1, contactFull)] (J.num 1)
      contactFull 9 (by decide)).2.2.2.2.1 (by decide) (by decide),
   (C5_amended_null_clears recAllNull [(J.num 1, contactFull)] (J.num 1)
      contactFull 9 (by decide)).2.2.2.2.2 (by decide) (by decide)⟩

/-- C7: when authentication succeeds at the transport level but the result
payload is falsy, the run aborts with an authentication failure, no local
write and no fetch request; the boolean-false case yields a failure state
distinguishable from the generic falsy case. -/
theorem C7_falsy_uid_aborts (cfg : Config) (env : Env) (oracle : Nat → Bool)
    (now : Nat) (store : Store) (u : J)
    (hcfg : (pyTruthy cfg.url && pyTruthy cfg.db && pyTruthy cfg.username
             && pyTruthy cfg.password) = true)
    (hauth : makeOdooRequest env.auth = some (Parsed.ok u))
    (hfalsy : u.truthy = false) :
    doSync cfg env oracle now store =
      ⟨if u.isBool then RunResult.authFalseUid else RunResult.authFalsyUid,
       store, [Req.auth]⟩ ∧
    RunResult.authFalseUid ≠ RunResult.authFalsyUid := by
  constructor
  · cases hb : u.isBool <;> simp [doSync, hcfg, hauth, hfalsy, hb]
  · decide

/-- C7 witnessed on the explicit boolean-false rejection from the remote. -/
theorem C7_falsy_uid_aborts_witness :
    doSync cfgEx
      ⟨HttpOutcome.resp 200 (RpcBody.okEnv (J.bool false)),
       HttpOutcome.resp 200 (RpcBody.okEnv [recAlice])⟩
      noFail 3 [(J.num 99, contactBob)] =
      ⟨if (J.bool false).isBool then RunResult.authFalseUid
        else RunResult.authFalsyUid,
       [(J.num 99, contactBob)], [Req.auth]⟩ ∧
    RunResult.authFalseUid ≠ RunResult.authFalsyUid :=
  C7_falsy_uid_aborts cfgEx
    ⟨HttpOutcome.resp 200 (RpcBody.okEnv (J.bool false)),
     HttpOutcome.resp 200 (RpcBody.okEnv [recAlice])⟩
    noFail 3 [(J.num 99, contactBob)] (J.bool false)
    (by decide) (by decide) (by decide)

/-- C9: if any of the four required settings is missing, the run aborts with
a configuration failure, issues no HTTP request and performs no local
write. -/
theorem C9_missing_config_aborts (cfg : Config) (env : Env)
    (oracle : Nat → Bool) (now : Nat) (store : Store)
    (h : cfg.url = none ∨ cfg.db = none ∨ cfg.username = none
         ∨ cfg.password = none) :
    doSync cfg env oracle now store = ⟨RunResult.configError, store, []⟩ := by
  rcases h with h | h | h | h <;> simp [doSync, h, pyTruthy]

/-- C9 witnessed with a missing password. -/
theorem C9_missing_config_aborts_witness :
    doSync ⟨some "http://odoo.example", some "db", some "user", none⟩
      ⟨HttpOutcome.resp 200 (RpcBody.okEnv (J.num 123)),
       HttpOutcome.resp 200 (RpcBody.okEnv [recAlice])⟩
      noFail 3 [(J.num 99, contactBob)] =
      ⟨RunResult.configError, [(J.num 99, contactBob)], []⟩ :=
  C9_missing_config_aborts ⟨some "http://odoo.example", some "db",
      some "user", none⟩
    ⟨HttpOutcome.resp 200 (RpcBody.okEnv (J.num 123)),
     HttpOutcome.resp 200 (RpcBody.okEnv [recAlice])⟩
    noFail 3 [(J.num 99, contactBob)]
    (Or.inr (Or.inr (Or.inr rfl)))

/-- When the settings are complete, authentication parses to a truthy uid
and the fetch parses to a record list, `do` runs the sync loop over the
fetched records: shared unfolding step for the reconciliation claims. -/
theorem doSync_success (cfg : Config) (env : Env) (oracle : Nat → Bool)
    (now : Nat) (store : Store) (u : J) (recs : List RawRecord)
    (hcfg : (pyTruthy cfg.url && pyTruthy cfg.db && pyTruthy cfg.username
             && pyTruthy cfg.password) = true)
    (hauth : makeOdooRequest env.auth = some (Parsed.ok u))
    (hu : u.truthy = true)
    (hfetch : makeOdooRequest env.fetch = some (Parsed.ok recs)) :
    doSync cfg env oracle now store =
      ⟨RunResult.done (syncLoop oracle now 0 store recs).created
        (syncLoop oracle now 0 store recs).updated,
       (syncLoop oracle now 0 store recs).store, [Req.auth, Req.fetch]⟩ := by
  simp [doSync, hcfg, hauth, hu, hfetch]

/-- C3 counterexample: with a pre-existing local row whose remote id (99) is
not among the fetched ids, a successful run over one fetched record leaves
2 rows, while the number of distinct fetched remote ids is 1 — the row
count does not equal the distinct-id count as the claim states. -/
theorem C3_counterexample :
    (doSync cfgEx
      ⟨HttpOutcome.resp 200 (RpcBody.okEnv (J.num 123)),
       HttpOutcome.resp 200 (RpcBody.okEnv [recAlice])⟩
      noFail 7 [(J.num 99, contactBob)]).result = RunResult.done 1 0 ∧
    (doSync cfgEx
      ⟨HttpOutcome.resp 200 (RpcBody.okEnv (J.num 123)),
       HttpOutcome.resp 200 (RpcBody.okEnv [recAlice])⟩
      noFail 7 [(J.num 99, contactBob)]).store.length = 2 ∧
    (idsOf [recAlice]).toFinset.card = 1 := by
  refine ⟨by decide, by decide, ?_⟩
  simp [idsOf, recAlice, rawGet?]

/-- C3 amended: starting from an empty local store, for every run in which
authentication and fetch succeed and every fetched record carries an id,
the number of rows after the run equals the number of distinct remote ids
seen, and created + updated equals the number of fetched records. -/
theorem C3_amended_counts (cfg : Config) (env : Env) (now : Nat) (u : J)
    (recs : List RawRecord)
    (hcfg : (pyTruthy cfg.url && pyTruthy cfg.db && pyTruthy cfg.username
             && pyTruthy cfg.password) = true)
    (hauth : makeOdooRequest env.auth = some (Parsed.ok u))
    (hu : u.truthy = true)
    (hfetch : makeOdooRequest env.fetch = some (Parsed.ok recs))
    (hid : ∀ r, r ∈ recs → (rawGet? r "id").isSome = true) :
    doSync cfg env noFail now [] =
      ⟨RunResult.done (syncLoop noFail now 0 [] recs).created
        (syncLoop noFail now 0 [] recs).updated,
       (syncLoop noFail now 0 [] recs).store, [Req.auth, Req.fetch]⟩ ∧
    (syncLoop noFail now 0 [] recs).store.length = (idsOf recs).toFinset.card ∧
    (syncLoop noFail now 0 [] recs).created
      + (syncLoop noFail now 0 [] recs).updated = recs.length := by
  refine ⟨doSync_success cfg env noFail now [] u recs hcfg hauth hu hfetch,
          ?_, ?_⟩
  · have hnodup : (storeKeys (syncLoop noFail now 0 [] recs).store).Nodup :=
      syncLoop_nodup noFail now recs 0 [] (by simp [storeKeys])
    have hfs : (storeKeys (syncLoop noFail now 0 [] recs).store).toFinset
        = (idsOf recs).toFinset := by
      ext v
      simp only [List.mem_toFinset]
      rw [syncLoop_mem_keys now recs 0 [] v]
      simp [storeKeys]
    have hlen : (syncLoop noFail now 0 [] recs).store.length
        = (storeKeys (syncLoop noFail now 0 [] recs).store).length := by
      simp [storeKeys]
    rw [hlen, ← List.toFinset_card_of_nodup hnodup, hfs]
  · have hcnt := syncLoop_counts now recs 0 []
    have hfil : recs.filter (fun r => (rawGet? r "id").isSome) = recs :=
      List.filter_eq_self.mpr (fun r hr => hid r hr)
    rw [hfil] at hcnt
    exact hcnt

/-- C3 amended, witnessed on a two-record batch from an empty store. -/
theorem C3_amended_counts_witness :
    doSync cfgEx
      ⟨HttpOutcome.resp 200 (RpcBody.okEnv (J.num 123)),
       HttpOutcome.resp 200 (RpcBody.okEnv [recAlice, recCarol])⟩
      noFail 7 [] =
      ⟨RunResult.done
        (syncLoop noFail 7 0 [] [recAlice, recCarol]).created
        (syncLoop noFail 7 0 [] [recAlice, recCarol]).updated,
       (syncLoop noFail 7 0 [] [recAlice, recCarol]).store,
       [Req.auth, Req.fetch]⟩ ∧
    (syncLoop noFail 7 0 [] [recAlice, recCarol]).store.length
      = (idsOf [recAlice, recCarol]).toFinset.card ∧
    (syncLoop noFail 7 0 [] [recAlice, recCarol]).created
      + (syncLoop noFail 7 0 [] [recAlice, recCarol]).updated
      = ([recAlice, recCarol] : List RawRecord).length :=
  C3_amended_counts cfgEx
    ⟨HttpOutcome.resp 200 (RpcBody.okEnv (J.num 123)),
     HttpOutcome.resp 200 (RpcBody.okEnv [recAlice, recCarol])⟩
    7 (J.num 123) [recAlice, recCarol]
    (by decide) (by decide) (by decide) (by decide) (by decide)

/-- C6: running the sync twice with identical remote data (every record
carrying an id, no write failures) is idempotent: the second run creates
nothing, updates exactly the batch size, and leaves the row count at the
value reached by the first run. -/
theorem C6_idempotent_second_run (cfg : Config) (env : Env) (t1 t2 : Nat)
    (s0 : Store) (u : J) (recs : List RawRecord)
    (hcfg : (pyTruthy cfg.url && pyTruthy cfg.db && pyTruthy cfg.username
             && pyTruthy cfg.password) = true)
    (hauth : makeOdooRequest env.auth = some (Parsed.ok u))
    (hu : u.truthy = true)
    (hfetch : makeOdooRequest env.fetch = some (Parsed.ok recs))
    (hid : ∀ r, r ∈ recs → (rawGet? r "id").isSome = true) :
    doSync cfg env noFail t1 s0 =
      ⟨RunResult.done (syncLoop noFail t1 0 s0 recs).created
        (syncLoop noFail t1 0 s0 recs).updated,
       (syncLoop noFail t1 0 s0 recs).store, [Req.auth, Req.fetch]⟩ ∧
    doSync cfg env noFail t2 (syncLoop noFail t1 0 s0 recs).store =
      ⟨RunResult.done 0 recs.length,
       (syncLoop noFail t2 0 (syncLoop noFail t1 0 s0 recs).store recs).store,
       [Req.auth, Req.fetch]⟩ ∧
    (syncLoop noFail t2 0 (syncLoop noFail t1 0 s0 recs).store recs).store.length
      = (syncLoop noFail t1 0 s0 recs).store.length := by
  have h1 := doSync_success cfg env noFail t1 s0 u recs hcfg hauth hu hfetch
  have h2 := doSync_success cfg env noFail t2
    (syncLoop noFail t1 0 s0 recs).store u recs hcfg hauth hu hfetch
  have hfound : ∀ r, r ∈ recs → ∀ v, rawGet? r "id" = some v →
      (lookupC (syncLoop noFail t1 0 s0 recs).store v).isSome = true := by
    intro r hr v hv
    rw [lookupC_isSome_iff, syncLoop_mem_keys t1 recs 0 s0 v]
    exact Or.inr (List.mem_filterMap.mpr ⟨r, hr, hv⟩)
  have hall := syncLoop_all_found t2 recs 0
    (syncLoop noFail t1 0 s0 recs).store hfound
  have hcnt := syncLoop_counts t2 recs 0 (syncLoop noFail t1 0 s0 recs).store
  have hfil : recs.filter (fun r => (rawGet? r "id").isSome) = recs :=
    List.filter_eq_self.mpr (fun r hr => hid r hr)
  rw [hfil] at hcnt
  have hupd : (syncLoop noFail t2 0 (syncLoop noFail t1 0 s0 recs).store
      recs).updated = recs.length := by omega
  refine ⟨h1, ?_, hall.2⟩
  rw [h2, hall.1, hupd]

/-- C6 witnessed: two identical runs over a two-record batch. -/
theorem C6_idempotent_second_run_witness :
    doSync cfgEx
      ⟨HttpOutcome.resp 200 (RpcBody.okEnv (J.num 123)),
       HttpOutcome.resp 200 (RpcBody.okEnv [recAlice, recCarol])⟩
      noFail 1 [] =
      ⟨RunResult.done
        (syncLoop noFail 1 0 [] [recAlice, recCarol]).created
        (syncLoop noFail 1 0 [] [recAlice, recCarol]).updated,
       (syncLoop noFail 1 0 [] [recAlice, recCarol]).store,
       [Req.auth, Req.fetch]⟩ ∧
    doSync cfgEx
      ⟨HttpOutcome.resp 200 (RpcBody.okEnv (J.num 123)),
       HttpOutcome.resp 200 (RpcBody.okEnv [recAlice, recCarol])⟩
      noFail 2 (syncLoop noFail 1 0 [] [recAlice, recCarol]).store =
      ⟨RunResult.done 0 ([recAlice, recCarol] : List RawRecord).length,
       (syncLoop noFail 2 0 (syncLoop noFail 1 0 [] [recAlice, recCarol]).store
         [recAlice, recCarol]).store,
       [Req.auth, Req.fetch]⟩ ∧
    (syncLoop noFail 2 0 (syncLoop noFail 1 0 [] [recAlice, recCarol]).store
      [recAlice, recCarol]).store.length
      = (syncLoop noFail 1 0 [] [recAlice, recCarol]).store.length :=
  C6_idempotent_second_run cfgEx
    ⟨HttpOutcome.resp 200 (RpcBody.okEnv (J.num 123)),
     HttpOutcome.resp 200 (RpcBody.okEnv [recAlice, recCarol])⟩
    1 2 [] (J.num 123) [recAlice, recCarol]
    (by decide) (by decide) (by decide) (by decide) (by decide)

/-- C8: whatever per-record database writes fail (any oracle), a run whose
authentication and fetch succeed always reaches the completion summary,
and every record whose write does not fail is present in the final store —
a failing record does not abort the processing of the remaining ones. -/
theorem C8_record_failure_isolated (cfg : Config) (env : Env)
    (oracle : Nat → Bool) (now : Nat) (store : Store) (u : J)
    (recs : List RawRecord)
    (hcfg : (pyTruthy cfg.url && pyTruthy cfg.db && pyTruthy cfg.username
             && pyTruthy cfg.password) = true)
    (hauth : makeOdooRequest env.auth = some (Parsed.ok u))
    (hu : u.truthy = true)
    (hfetch : makeOdooRequest env.fetch = some (Parsed.ok recs)) :
    doSync cfg env oracle now store =
      ⟨RunResult.done (syncLoop oracle now 0 store recs).created
        (syncLoop oracle now 0 store recs).updated,
       (syncLoop oracle now 0 store recs).store, [Req.auth, Req.fetch]⟩ ∧
    (∀ j, ∀ hj : j < recs.length, oracle j = false → ∀ v,
        rawGet? (recs.get ⟨j, hj⟩) "id" = some v →
        (lookupC (doSync cfg env oracle now store).store v).isSome = true) := by
  have hrun := doSync_success cfg env oracle now store u recs hcfg hauth hu hfetch
  refine ⟨hrun, ?_⟩
  intro j hj ho v hv
  rw [hrun]
  have ho0 : oracle (0 + j) = false := by simpa using ho
  exact syncLoop_processed oracle now recs 0 store j hj ho0 v hv

/-- C8 witnessed: the write for the first record fails, the run still
completes and the second record is present in the final store. -/
theorem C8_record_failure_isolated_witness :
    (doSync cfgEx
      ⟨HttpOutcome.resp 200 (RpcBody.okEnv (J.num 123)),
       HttpOutcome.resp 200 (RpcBody.okEnv [recAlice, recCarol])⟩
      (fun i => decide (i = 0)) 4 [] =
      ⟨RunResult.done
        (syncLoop (fun i => decide (i = 0)) 4 0 [] [recAlice, recCarol]).created
        (syncLoop (fun i => decide (i = 0)) 4 0 [] [recAlice, recCarol]).updated,
       (syncLoop (fun i => decide (i = 0)) 4 0 [] [recAlice, recCarol]).store,
       [Req.auth, Req.fetch]⟩) ∧
    (lookupC (doSync cfgEx
      ⟨HttpOutcome.resp 200 (RpcBody.okEnv (J.num 123)),
       HttpOutcome.resp 200 (RpcBody.okEnv [recAlice, recCarol])⟩
      (fun i => decide (i = 0)) 4 []).store (J.num 2)).isSome = true :=
  ⟨(C8_record_failure_isolated cfgEx
      ⟨HttpOutcome.resp 200 (RpcBody.okEnv (J.num 123)),
       HttpOutcome.resp 200 (RpcBody.okEnv [recAlice, recCarol])⟩
      (fun i => decide (i = 0)) 4 [] (J.num 123) [recAlice, recCarol]
      (by decide) (by decide) (by decide) (by decide)).1,
   (C8_record_failure_isolated cfgEx
      ⟨HttpOutcome.resp 200 (RpcBody.okEnv (J.num 123)),
       HttpOutcome.resp 200 (RpcBody.okEnv [recAlice, recCarol])⟩
      (fun i => decide (i = 0)) 4 [] (J.num 123) [recAlice, recCarol]
      (by decide) (by decide) (by decide) (by decide)).2
     1 (by decide) (by decide) (J.num 2) (by decide)⟩

/-- C10: any pre-existing row whose remote id does not occur among the
ids of the fetched records is left with exactly its prior contents (every field,
including the sync timestamp) and is never deleted, whatever outcome the run
reaches. -/
theorem C10_frame_untouched_rows (cfg : Config) (env : Env)
    (oracle : Nat → Bool) (now : Nat) (store : Store) (k : J)
    (h : ∀ recs, makeOdooRequest env.fetch = some (Parsed.ok recs) →
      k ∉ idsOf recs) :
    lookupC (doSync cfg env oracle now store).store k = lookupC store k := by
  by_cases hcfg : (pyTruthy cfg.url && pyTruthy cfg.db && pyTruthy cfg.username
      && pyTruthy cfg.password) = true
  · cases hA : makeOdooRequest env.auth with
    | none => simp [doSync, hcfg, hA]
    | some p =>
      cases p with
      | err m d => simp [doSync, hcfg, hA]
      | ok u =>
        by_cases hu : u.truthy = true
        · cases hF : makeOdooRequest env.fetch with
          | none => simp [doSync, hcfg, hA, hu, hF]
          | some q =>
            cases q with
            | err m d => simp [doSync, hcfg, hA, hu, hF]
            | ok recs =>
              rw [doSync_success cfg env oracle now store u recs hcfg hA hu hF]
              exact syncLoop_lookup_frame oracle now recs 0 store k (h recs hF)
        · have hfa : u.truthy = false := Bool.eq_false_iff.mpr hu
          cases hb : u.isBool <;> simp [doSync, hcfg, hA, hfa, hb]
  · have hc2 : (pyTruthy cfg.url && pyTruthy cfg.db && pyTruthy cfg.username
        && pyTruthy cfg.password) = false := Bool.eq_false_iff.mpr hcfg
    simp [doSync, hc2]

/-- C10 witnessed: a run that fetches one record with id 1 leaves the
pre-existing row with id 99 exactly as it was. -/
theorem C10_frame_untouched_rows_witness :
    lookupC (doSync cfgEx
      ⟨HttpOutcome.resp 200 (RpcBody.okEnv (J.num 123)),
       HttpOutcome.resp 200 (RpcBody.okEnv [recAlice])⟩
      noFail 7 [(J.num 99, contactBob)]).store (J.num 99)
      = lookupC [(J.num 99, contactBob)] (J.num 99) :=
  C10_frame_untouched_rows cfgEx
    ⟨HttpOutcome.resp 200 (RpcBody.okEnv (J.num 123)),
     HttpOutcome.resp 200 (RpcBody.okEnv [recAlice])⟩
    noFail 7 [(J.num 99, contactBob)] (J.num 99)
    (fun recs heq => by
      simp [makeOdooRequest] at heq
      subst heq
      decide)

end Claims

end OdooSync
